import Mathlib

/-!
Verification of `src/mcp-servers/gpt-researcher-mcp.py`.

The script imports `os` and `GPTResearcher` from `gpt_researcher`, defines
one asynchronous function

  async def research(query):
      researcher = GPTResearcher(query=query, report_type="research_report")
      report = await researcher.conduct_research()
      return report

and, when run as the main module, prints the fixed line
"GPT Researcher MCP Server started".

The external dependency is a black box here: it is modelled as a function
from the construction arguments to the outcome of its single asynchronous
operation, an `Except e r` where `e` is the type of failures it may raise
and `r` the type of values it may return.  A run of `research` is recorded
as a trace of observable events (one per constructor call, one per awaited
call) together with the final outcome.  The module-level mutable state is
threaded through as an arbitrary type `s`; the body of `research` contains
no statement that reads or writes a module-level name other than the
imported constructor, so the state passes through untouched.
-/

namespace GPTResearcherMCP

/-- Construction arguments of the external `GPTResearcher` object.  The
source supplies exactly two keyword arguments, `query` and `report_type`,
so the record has exactly these two fields and nothing else. -/
structure GPTResearcherArgs where
  query : String
  report_type : String
  deriving DecidableEq, Repr

/-- Observable events during one invocation of `research`: a constructor
call on the external dependency, or an awaited call of its asynchronous
`conduct_research` operation together with the outcome of that call. -/
inductive Event (e r : Type) where
  | construct (args : GPTResearcherArgs)
  | awaitCall (outcome : Except e r)

/-- One complete run of `research`: the trace of events it performed and
its outcome — `Except.ok` a returned report, or `Except.error` the failure
propagated from the dependency. -/
structure ResearchRun (e r : Type) where
  events : List (Event e r)
  result : Except e r

/-- Shallow embedding of the Python function `research`.  Line by line:
`researcher = GPTResearcher(query=query, report_type="research_report")`
builds the argument record from the query and the fixed mode string;
`report = await researcher.conduct_research()` performs the single awaited
call, whose outcome is `dep researcher`; on success `return report` yields
the report, on failure the exception propagates as the result of the call.
The module state `g` of arbitrary type `s` is passed through unchanged
because the function body touches no module-level mutable name. -/
def research (s e r : Type) (dep : GPTResearcherArgs → Except e r)
    (query : String) (g : s) : ResearchRun e r × s :=
  let researcher : GPTResearcherArgs := ⟨query, "research_report"⟩
  match dep researcher with
  | Except.ok report =>
      (⟨[Event.construct researcher, Event.awaitCall (Except.ok report)],
        Except.ok report⟩, g)
  | Except.error exc =>
      (⟨[Event.construct researcher, Event.awaitCall (Except.error exc)],
        Except.error exc⟩, g)

/-- Arguments of all constructor calls occurring in a trace, in order. -/
def constructions {e r : Type} (evs : List (Event e r)) :
    List GPTResearcherArgs :=
  evs.filterMap fun ev => match ev with
    | Event.construct a => some a
    | Event.awaitCall _ => none

/-- Number of awaited dependency calls occurring in a trace. -/
def awaitCount {e r : Type} (evs : List (Event e r)) : Nat :=
  (evs.filterMap fun ev => match ev with
    | Event.construct _ => none
    | Event.awaitCall o => some o).length

/-- Observable top-level actions of the module: importing a module,
printing a line to standard output, or invoking the `research` function
with some query. -/
inductive TopAction where
  | importModule (modName : String)
  | printLine (line : String)
  | invokeResearch (query : String)
  deriving DecidableEq, Repr

/-- The fixed startup string printed by the entry-point block. -/
def startupMessage : String := "GPT Researcher MCP Server started"

/-- Shallow embedding of the module top level, parameterised by whether
`__name__ == "__main__"` holds.  Lines 1 and 2 import `os` and
`gpt_researcher`; lines 4 to 7 define the `research` function, which is a
binding and performs no observable action; lines 9 and 10 print the
startup string exactly when the module is run as the entry point. -/
def moduleTopLevel (isMainModule : Bool) : List TopAction :=
  [TopAction.importModule "os", TopAction.importModule "gpt_researcher"] ++
  (if isMainModule then [TopAction.printLine startupMessage] else [])

/-- Lines printed to standard output by a list of top-level actions. -/
def printedLines (acts : List TopAction) : List String :=
  acts.filterMap fun a => match a with
    | TopAction.printLine l => some l
    | _ => none

/-- Queries with which `research` is invoked by a list of top-level
actions. -/
def researchInvocations (acts : List TopAction) : List String :=
  acts.filterMap fun a => match a with
    | TopAction.invokeResearch q => some q
    | _ => none

/-- Characterisation of one run of `research`: the trace is exactly one
constructor call with the given query and the fixed report type, followed
by the one awaited call, the result is exactly the outcome of the
dependency, and the module state is returned unchanged. -/
theorem research_run_spec (s e r : Type) (dep : GPTResearcherArgs → Except e r)
    (q : String) (g : s) :
    research s e r dep q g =
      (⟨[Event.construct ⟨q, "research_report"⟩,
         Event.awaitCall (dep ⟨q, "research_report"⟩)],
        dep ⟨q, "research_report"⟩⟩, g) := by
  unfold research
  cases h : dep ⟨q, "research_report"⟩ <;> simp [h]

/-- C1: for every query string `q`, invoking `research` constructs the
external dependency exactly once, with exactly the arguments
`query = q` (passed through unmodified) and `report_type =
"research_report"`; the argument record has no further field, so no other
configuration is supplied. -/
theorem research_constructs_exact_args (s e r : Type)
    (dep : GPTResearcherArgs → Except e r) (q : String) (g : s) :
    constructions ((research s e r dep q g).1).events =
      [⟨q, "research_report"⟩] := by
  simp [research_run_spec, constructions]

/-- C2: whenever the dependency returns a report `R` for the constructed
arguments, `research` returns exactly `R`, with no transformation. -/
theorem research_returns_report_unmodified (s e : Type)
    (dep : GPTResearcherArgs → Except e String) (q : String) (g : s)
    (R : String) (h : dep ⟨q, "research_report"⟩ = Except.ok R) :
    ((research s e String dep q g).1).result = Except.ok R := by
  simp [research_run_spec, h]

/-- C2 witness: the scenario of the specification, with a stand-in
dependency that prefixes "REPORT:" to the query it was constructed with.
For the query "climate policy 2030" it returns
"REPORT:climate policy 2030" and `research` returns that very string. -/
theorem research_returns_report_unmodified_witness :
    ((research Unit Unit String
        (fun a => Except.ok ("REPORT:" ++ a.query))
        "climate policy 2030" ()).1).result =
      Except.ok "REPORT:climate policy 2030" :=
  research_returns_report_unmodified Unit Unit
    (fun a => Except.ok ("REPORT:" ++ a.query))
    "climate policy 2030" () "REPORT:climate policy 2030" rfl

/-- C3: whenever the dependency raises a failure during its asynchronous
operation, the call of `research` propagates exactly that failure: nothing
is suppressed, wrapped or replaced, and no handler of its own runs. -/
theorem research_propagates_failure (s e r : Type)
    (dep : GPTResearcherArgs → Except e r) (q : String) (g : s)
    (exc : e) (h : dep ⟨q, "research_report"⟩ = Except.error exc) :
    ((research s e r dep q g).1).result = Except.error exc := by
  simp [research_run_spec, h]

/-- C3 witness: a stand-in dependency that raises the failure
"quota exhausted"; the call of `research` raises that same failure. -/
theorem research_propagates_failure_witness :
    ((research Unit String String
        (fun _ => Except.error "quota exhausted")
        "climate policy 2030" ()).1).result =
      Except.error "quota exhausted" :=
  research_propagates_failure Unit String String
    (fun _ => Except.error "quota exhausted")
    "climate policy 2030" () "quota exhausted" rfl

/-- C4: running the module as the entry point performs exactly the two
imports followed by one print of the fixed startup string: exactly one
line is printed to standard output, and `research` is never invoked. -/
theorem mainBlock_prints_startup_only :
    moduleTopLevel true =
      [TopAction.importModule "os", TopAction.importModule "gpt_researcher",
       TopAction.printLine startupMessage] ∧
    printedLines (moduleTopLevel true) = [startupMessage] ∧
    researchInvocations (moduleTopLevel true) = [] := by
  refine ⟨rfl, rfl, rfl⟩

/-- C5: every invocation of `research` awaits the asynchronous operation
of the dependency exactly once: the trace contains exactly one awaited
call, whatever the query, the dependency behaviour and the module state
are — no retry, no repetition, no additional call. -/
theorem research_awaits_exactly_once (s e r : Type)
    (dep : GPTResearcherArgs → Except e r) (q : String) (g : s) :
    awaitCount ((research s e r dep q g).1).events = 1 := by
  simp [research_run_spec, awaitCount]

/-- C6: `research` validates nothing: for every query string, the empty
string included, the very first event of the run is the construction of
the dependency with that string as given, and the result of the run is
exactly the outcome of the dependency — so every failure of the run
originates in the dependency and none is raised by this code before
delegating. -/
theorem research_no_query_validation (s e r : Type)
    (dep : GPTResearcherArgs → Except e r) (q : String) (g : s) :
    ((research s e r dep q g).1).events.head? =
      some (Event.construct ⟨q, "research_report"⟩) ∧
    ((research s e r dep q g).1).result = dep ⟨q, "research_report"⟩ := by
  constructor <;> simp [research_run_spec]

/-- C7: separate invocations of `research` are independent: the module
state is returned unchanged (no module-level mutable state is written),
the whole run — trace and result — is the same from any two module states
(no module-level mutable state is read), and each call performs its own
fresh constructor call on the dependency.  Hence two invocations with the
same query and dependency behaviour produce the same result and no
invocation depends on a prior one. -/
theorem research_invocations_independent (s e r : Type)
    (dep : GPTResearcherArgs → Except e r) (q : String) (g g' : s) :
    (research s e r dep q g).2 = g ∧
    (research s e r dep q g).1 = (research s e r dep q g').1 ∧
    constructions ((research s e r dep q g).1).events =
      [⟨q, "research_report"⟩] := by
  refine ⟨?_, ?_, ?_⟩ <;> simp [research_run_spec, constructions]

/-- C8: `research` performs no type check and no conversion on the result
of the dependency: for every result type `r` — not only strings — and
every value `R` of that type the dependency returns, `research` returns
that very value. -/
theorem research_result_any_type (s e r : Type)
    (dep : GPTResearcherArgs → Except e r) (q : String) (g : s)
    (R : r) (h : dep ⟨q, "research_report"⟩ = Except.ok R) :
    ((research s e r dep q g).1).result = Except.ok R := by
  simp [research_run_spec, h]

/-- C8 witness: a stand-in dependency returning the natural number 42, a
value that is not text; `research` returns exactly that value. -/
theorem research_result_any_type_witness :
    ((research Unit Unit Nat (fun _ => Except.ok 42)
        "climate policy 2030" ()).1).result = Except.ok 42 :=
  research_result_any_type Unit Unit Nat (fun _ => Except.ok 42)
    "climate policy 2030" () 42 rfl

/-- C9: importing the module without running it as the entry point
performs exactly the two imports: nothing is printed to standard output
and `research` is not invoked, since the startup print is guarded by the
entry-point check. -/
theorem import_only_no_output :
    moduleTopLevel false =
      [TopAction.importModule "os", TopAction.importModule "gpt_researcher"] ∧
    printedLines (moduleTopLevel false) = [] ∧
    researchInvocations (moduleTopLevel false) = [] := by
  refine ⟨rfl, rfl, rfl⟩

/-- C10: `research` contains no loop and no recursion: its trace has the
fixed length 2 — one constructor call and one awaited call — for every
query, dependency behaviour and module state, so a call terminates
whenever the construction of the dependency and its one awaited
asynchronous operation do. -/
theorem research_bounded_trace (s e r : Type)
    (dep : GPTResearcherArgs → Except e r) (q : String) (g : s) :
    ((research s e r dep q g).1).events.length = 2 := by
  simp [research_run_spec]

end GPTResearcherMCP
